import Mathlib

set_option linter.all false

/-!
Shallow embedding of the push-notification fan-out subsystem of the
repository (backend/models/User.js, backend/services/fcmPushService.js
with its two service variants FCMPushService and HybridPushService,
backend/routes/push.js, and the posts/comments route notification blocks).

Conventions of the embedding:
- JS strings are Lean String; a JS value that may be undefined is an Option.
- JS truthiness of an optional string (undefined or empty string is falsy)
  is the predicate optStringTruthy below.
- An awaited remote call that may resolve or throw is modelled by the
  RemoteOutcome oracle; a whole per-device or per-user promise that may
  reject for any environmental reason is modelled by DeviceCall / UserCall.
- Mongo query filters run against the stored document fields, so a stored
  boolean field is an Option Bool and the filter matches only when the
  stored value is literally the queried one.
-/

/-- JS truthiness of an optional string: undefined and the empty string are
falsy, every other string is truthy. -/
def optStringTruthy : Option String → Bool
  | none => false
  | some s => !s.isEmpty

/-- Device subdocument of the User schema (backend/models/User.js,
deviceSchema). The webPushSubscription object is kept opaque: only its
presence matters to the code. -/
structure Device where
  deviceId : String
  platform : String
  browser : String := "other"
  webPushSubscription : Option String := none
  fcmToken : Option String := none
  pushMethod : String := "auto"
  lastActiveAt : Nat := 0
  enabled : Bool := true
  deriving DecidableEq, Repr

/-- Truthiness of device.fcmToken as tested by the services. -/
def Device.hasFcmToken (d : Device) : Bool := optStringTruthy d.fcmToken

/-- Truthiness of device.webPushSubscription (an object: present means
truthy). -/
def Device.hasWebPushSubscription (d : Device) : Bool := d.webPushSubscription.isSome

/-- The notificationSettings nested path of the User schema. The schema in
backend/models/User.js defines only the paths follows and postsFromFollowed
(both with default true); commentsOnMyPosts, likesOnMyPosts and
repliesToMyComments are read by the comments route but are not defined by
any schema variant. Each field here is the runtime value the reading code
observes: none models a JS undefined. -/
structure NotificationSettings where
  follows : Option Bool := none
  postsFromFollowed : Option Bool := none
  commentsOnMyPosts : Option Bool := none
  likesOnMyPosts : Option Bool := none
  repliesToMyComments : Option Bool := none
  deriving DecidableEq, Repr

/-- The slice of a User document used by the fan-out subsystem
(backend/models/User.js, userSchema). The id field stands for the Mongo _id
rendered as a string; avatarUrl defaults to the empty string as in the
schema. -/
structure User where
  id : String
  displayName : String := ""
  avatarUrl : String := ""
  following : List String := []
  notificationSettings : NotificationSettings := {}
  devices : List Device := []
  deriving DecidableEq, Repr

/-- Outcome of one awaited remote transport call (admin.messaging().send or
webpush.sendNotification), including anything else thrown inside the
surrounding try block: the call either resolves with a provider result or
throws with an error message. -/
inductive RemoteOutcome where
  | ok (result : String)
  | err (msg : String)
  deriving DecidableEq, Repr

/-- Resolution of the whole per-device promise produced inside
sendToDevices: it either runs sendToDevice with the given remote outcome,
or rejects for an environmental reason; the rejection message is what the
attached catch handler observes as error.message. -/
inductive DeviceCall where
  | resolves (remote : RemoteOutcome)
  | rejects (msg : String)
  deriving DecidableEq, Repr

/-- Resolution of the whole per-user await inside sendToUsers: it either
runs sendToUser (with a per-device oracle), or rejects and is caught by the
try/catch of sendToUsers. -/
inductive UserCall where
  | resolves (denv : Device → DeviceCall)
  | rejects (msg : String)

/-- Whether a per-user call resolved rather than rejected. -/
def UserCall.isResolves : UserCall → Bool
  | .resolves _ => true
  | .rejects _ => false

/-- Result record of sendFCMPush / sendWebPush: a structured
success-or-failure value, never an exception. -/
structure PushResult where
  success : Bool
  method : String
  result : Option String := none
  error : Option String := none
  deriving DecidableEq, Repr

/-- Per-device outcome record as aggregated by sendToDevices. Fields that a
given code path does not set are none (absent key in the JS object). -/
structure DeviceOutcome where
  success : Bool
  method : Option String := none
  result : Option String := none
  error : Option String := none
  reason : Option String := none
  deviceId : Option String := none
  pushMethod : Option String := none
  deriving DecidableEq, Repr

/-- Report returned by sendToDevices. -/
structure DevicesReport where
  total : Nat
  successful : Nat
  failed : Nat
  results : List DeviceOutcome
  deriving DecidableEq, Repr

/-- Result of sendToUser as consumed by sendToUsers. The JS value either
carries success = false with a reason (no eligible devices), or is the
devices report, which has no success key at all; the errored form is the
object built by the catch handler of sendToUsers. -/
inductive UserResult where
  | noEnabled (reason : String)
  | errored (msg : String)
  | report (r : DevicesReport)
  deriving DecidableEq, Repr

/-- The JS value of r.success on a per-user result: false for the failure
shapes, undefined (none) for a devices report. -/
def UserResult.successField : UserResult → Option Bool
  | .noEnabled _ => some false
  | .errored _ => some false
  | .report _ => none

/-- Truthiness of r.success on a per-user result (undefined is falsy). -/
def UserResult.successTruthy (r : UserResult) : Bool :=
  match r.successField with
  | some true => true
  | _ => false

/-- The test r.success === false on a per-user result. -/
def UserResult.successIsFalse (r : UserResult) : Bool :=
  r.successField == some false

/-- One entry of the per-user results list of sendToUsers. -/
structure UserEntry where
  userId : String
  result : UserResult
  deriving DecidableEq, Repr

/-- The summary object of the sendToUsers report. -/
structure UsersSummary where
  successful : Nat
  failed : Nat
  deriving DecidableEq, Repr

/-- Report returned by sendToUsers. -/
structure UsersReport where
  totalUsers : Nat
  results : List UserEntry
  summary : UsersSummary
  deriving DecidableEq, Repr

namespace FCMPushService

/-- FCMPushService.sendFCMPush: wraps the whole FCM send in try/catch. If
Firebase is not initialized it throws inside the try block; any thrown
error is caught and returned as success = false with the error message. -/
def sendFCMPush (isFirebaseInitialized : Bool) (remote : RemoteOutcome) : PushResult :=
  if !isFirebaseInitialized then
    { success := false, method := "fcm", error := some "Firebase not initialized" }
  else
    match remote with
    | .ok r => { success := true, method := "fcm", result := some r }
    | .err e => { success := false, method := "fcm", error := some e }

/-- FCMPushService.sendToDevice: short-circuits on a disabled device and on
a missing FCM token, otherwise delegates to sendFCMPush and tags the result
with the device id. -/
def sendToDevice (isFirebaseInitialized : Bool) (device : Device) (remote : RemoteOutcome) : DeviceOutcome :=
  if !device.enabled then
    { success := false, reason := some "Device disabled" }
  else if !device.hasFcmToken then
    { success := false, reason := some "No FCM token available" }
  else
    let r := sendFCMPush isFirebaseInitialized remote
    { success := r.success, method := some r.method, result := r.result,
      error := r.error, deviceId := some device.deviceId, pushMethod := some "fcm" }

/-- FCMPushService.sendToDevices: maps every device to an independent send
whose rejection is caught and converted into a failed outcome tagged with
the device id, then aggregates counts over the outcome list. -/
def sendToDevices (isFirebaseInitialized : Bool) (devices : List Device) (env : Device → DeviceCall) : DevicesReport :=
  let sendResults := devices.map fun device =>
    match env device with
    | .resolves remote => sendToDevice isFirebaseInitialized device remote
    | .rejects msg => { success := false, deviceId := some device.deviceId, error := some msg }
  { total := devices.length,
    successful := (sendResults.filter fun r => r.success).length,
    failed := (sendResults.filter fun r => !r.success).length,
    results := sendResults }

/-- FCMPushService.sendToUser: filters the user's devices to the enabled
ones holding an FCM token; with none it returns the success = false shape,
otherwise the sendToDevices report. -/
def sendToUser (isFirebaseInitialized : Bool) (user : User) (env : Device → DeviceCall) : UserResult :=
  let enabledDevices := user.devices.filter fun device => device.enabled && device.hasFcmToken
  if enabledDevices.length = 0 then
    .noEnabled "No enabled FCM devices"
  else
    .report (sendToDevices isFirebaseInitialized enabledDevices env)

/-- FCMPushService.sendToUsers: sequentially sends to each user inside a
try/catch, then builds the summary; successful counts the entries whose
success field is not the value false, failed the entries where it is. -/
def sendToUsers (isFirebaseInitialized : Bool) (users : List User) (uenv : User → UserCall) : UsersReport :=
  let allResults := users.map fun user =>
    match uenv user with
    | .resolves denv => { userId := user.id, result := sendToUser isFirebaseInitialized user denv : UserEntry }
    | .rejects msg => { userId := user.id, result := .errored msg }
  { totalUsers := users.length,
    results := allResults,
    summary :=
      { successful := (allResults.filter fun r => !r.result.successIsFalse).length,
        failed := (allResults.filter fun r => r.result.successIsFalse).length } }

end FCMPushService

/-- Module-level initialization state of the HybridPushService singleton
(whether the Firebase client and the web-push VAPID configuration were set
up in the constructor). -/
structure HybridPushService where
  isFirebaseInitialized : Bool
  isWebPushInitialized : Bool
  deriving DecidableEq, Repr

namespace HybridPushService

/-- HybridPushService.getBestPushMethod: picks web-push or fcm for a device
following the explicit-preference branches and then the auto-selection
branches, returning none (JS null) when no method is available. -/
def getBestPushMethod (svc : HybridPushService) (device : Device) : Option String :=
  if device.pushMethod == "web-push" && device.hasWebPushSubscription && svc.isWebPushInitialized then
    some "web-push"
  else if device.pushMethod == "fcm" && device.hasFcmToken && svc.isFirebaseInitialized then
    some "fcm"
  else if device.pushMethod == "auto" then
    if (device.platform == "web" || device.platform == "mac" || device.platform == "windows")
        && device.hasWebPushSubscription && svc.isWebPushInitialized then
      some "web-push"
    else if device.hasFcmToken && svc.isFirebaseInitialized then
      some "fcm"
    else if device.hasWebPushSubscription && svc.isWebPushInitialized then
      some "web-push"
    else
      none
  else
    none

/-- HybridPushService.sendWebPush: wraps the web-push call in try/catch; an
uninitialized VAPID configuration throws inside the try block and every
thrown error is returned as success = false with the message. -/
def sendWebPush (svc : HybridPushService) (remote : RemoteOutcome) : PushResult :=
  if !svc.isWebPushInitialized then
    { success := false, method := "web-push", error := some "Web Push VAPID not initialized" }
  else
    match remote with
    | .ok r => { success := true, method := "web-push", result := some r }
    | .err e => { success := false, method := "web-push", error := some e }

/-- HybridPushService.sendFCMPush: same try/catch shape as the FCM variant
(an uninitialized Firebase client throws inside the try block, every thrown
error becomes a structured failure). -/
def sendFCMPush (svc : HybridPushService) (remote : RemoteOutcome) : PushResult :=
  if !svc.isFirebaseInitialized then
    { success := false, method := "fcm", error := some "Firebase not initialized" }
  else
    match remote with
    | .ok r => { success := true, method := "fcm", result := some r }
    | .err e => { success := false, method := "fcm", error := some e }

/-- HybridPushService.sendToDevice: short-circuits on a disabled device,
then on a device for which getBestPushMethod yields no method; otherwise it
performs the selected transport call and tags the result with the device id
and chosen method. -/
def sendToDevice (svc : HybridPushService) (device : Device) (remote : RemoteOutcome) : DeviceOutcome :=
  if !device.enabled then
    { success := false, reason := some "Device disabled" }
  else
    match getBestPushMethod svc device with
    | none => { success := false, reason := some "No available push method" }
    | some m =>
      let r := if m == "web-push" then sendWebPush svc remote else sendFCMPush svc remote
      { success := r.success, method := some r.method, result := r.result,
        error := r.error, deviceId := some device.deviceId, pushMethod := some m }

/-- HybridPushService.sendToDevices: identical aggregation to the FCM
variant, delegating to the hybrid sendToDevice. -/
def sendToDevices (svc : HybridPushService) (devices : List Device) (env : Device → DeviceCall) : DevicesReport :=
  let sendResults := devices.map fun device =>
    match env device with
    | .resolves remote => sendToDevice svc device remote
    | .rejects msg => { success := false, deviceId := some device.deviceId, error := some msg }
  { total := devices.length,
    successful := (sendResults.filter fun r => r.success).length,
    failed := (sendResults.filter fun r => !r.success).length,
    results := sendResults }

/-- HybridPushService.sendToUser: filters only on device.enabled (no
credential check), returning the failure shape when no device remains. -/
def sendToUser (svc : HybridPushService) (user : User) (env : Device → DeviceCall) : UserResult :=
  let enabledDevices := user.devices.filter fun device => device.enabled
  if enabledDevices.length = 0 then
    .noEnabled "No enabled devices"
  else
    .report (sendToDevices svc enabledDevices env)

/-- HybridPushService.sendToUsers: like the FCM variant but the summary
counts successful entries by truthiness of the success field and failed
entries by its falsiness. -/
def sendToUsers (svc : HybridPushService) (users : List User) (uenv : User → UserCall) : UsersReport :=
  let allResults := users.map fun user =>
    match uenv user with
    | .resolves denv => { userId := user.id, result := sendToUser svc user denv : UserEntry }
    | .rejects msg => { userId := user.id, result := .errored msg }
  { totalUsers := users.length,
    results := allResults,
    summary :=
      { successful := (allResults.filter fun r => r.result.successTruthy).length,
        failed := (allResults.filter fun r => !r.result.successTruthy).length } }

end HybridPushService

/-!
Route layer: the notification blocks of the posts route (create post,
like post) and of the comments route (create comment, like comment), and
the device registry operations of backend/routes/push.js.
-/

/-- The slice of a Post document used by the notification blocks. likes
keeps the liker user ids (the code compares like.userId.toString()). -/
structure PostDoc where
  id : String
  authorId : String
  text : String := ""
  likes : List String := []
  deriving DecidableEq, Repr

/-- The slice of a Comment document used by the comment-like notification
block. -/
structure CommentDoc where
  id : String
  postId : String
  authorId : String
  text : String := ""
  likes : List String := []
  likeCount : Nat := 0
  deriving DecidableEq, Repr

/-- The flat data block of a push payload. -/
structure PayloadData where
  type : String
  postId : String
  authorId : String
  url : String
  deriving DecidableEq, Repr

/-- Transport-agnostic push payload built by the routes. -/
structure PushPayload where
  title : String
  body : String
  icon : String
  badge : String
  data : PayloadData
  deriving DecidableEq, Repr

/-- First n characters of a string followed by an ellipsis: the embedding
of text.substring(0, n) + three dots. -/
def truncateWithEllipsis (n : Nat) (text : String) : String :=
  String.mk (text.data.take n) ++ "..."

/-- The icon expression avatarUrl or-else the default icon path (JS
short-circuit or on a string defaulting to the empty string). -/
def iconOrDefault (avatarUrl : String) : String :=
  if avatarUrl.isEmpty then "/icon-192x192.png" else avatarUrl

/-- pushPayload built in the create-post route: the body keeps the text
when it has at most 100 characters and otherwise is its first 100
characters plus an ellipsis. -/
def newPostPushPayload (author : User) (text : String) (postId : String) : PushPayload :=
  { title := "New post from " ++ author.displayName,
    body := if text.length > 100 then truncateWithEllipsis 100 text else text,
    icon := iconOrDefault author.avatarUrl,
    badge := "/badge-72x72.png",
    data := { type := "new_post", postId := postId, authorId := author.id, url := "/feed" } }

/-- The followers query of the create-post route: User.find on the raw
stored documents matching users whose following array contains the author
and whose stored notificationSettings.postsFromFollowed field is literally
true; a document in which the field is absent does not match. -/
def findFollowers (store : List User) (authorId : String) : List User :=
  store.filter fun u =>
    u.following.contains authorId && u.notificationSettings.postsFromFollowed == some true

/-- The create-post notification block: resolves the follower recipients
and builds the single shared push payload handed to sendToUsers. -/
def newPostRouteNotifications (store : List User) (author : User) (text : String) (postId : String) :
    List User × PushPayload :=
  (findFollowers store author.id, newPostPushPayload author text postId)

/-- One notification-producing action of a route notification block:
either an in-app notification row or a push send to a resolved recipient. -/
inductive NotifyAction where
  | inApp (recipientId : String) (actorId : String) (ntype : String) (message : String)
  | push (recipient : User) (payload : PushPayload)
  deriving Repr

/-- The push recipients named by a list of actions. -/
def pushRecipientIds (actions : List NotifyAction) : List String :=
  actions.filterMap fun a =>
    match a with
    | .push recipient _ => some recipient.id
    | _ => none

/-- pushPayload built in the create-comment route for the post author:
50-character truncation at 47 characters plus ellipsis. -/
def commentPushPayload (commenter : User) (text : String) (postId : String) : PushPayload :=
  { title := commenter.displayName ++ " commented on your post",
    body := if text.length > 50 then truncateWithEllipsis 47 text else text,
    icon := iconOrDefault commenter.avatarUrl,
    badge := "/badge-72x72.png",
    data := { type := "comment", postId := postId, authorId := commenter.id,
              url := "/posts/" ++ postId } }

/-- pushPayload built in the create-comment route for the parent comment
author. -/
def replyPushPayload (commenter : User) (text : String) (postId : String) : PushPayload :=
  { title := commenter.displayName ++ " replied to your comment",
    body := if text.length > 50 then truncateWithEllipsis 47 text else text,
    icon := iconOrDefault commenter.avatarUrl,
    badge := "/badge-72x72.png",
    data := { type := "reply", postId := postId, authorId := commenter.id,
              url := "/posts/" ++ postId } }

/-- pushPayload built in the comment-like route. -/
def likeCommentPushPayload (liker : User) (comment : CommentDoc) : PushPayload :=
  { title := liker.displayName ++ " liked your comment",
    body := if comment.text.length > 50 then truncateWithEllipsis 47 comment.text else comment.text,
    icon := iconOrDefault liker.avatarUrl,
    badge := "/badge-72x72.png",
    data := { type := "like", postId := comment.postId, authorId := liker.id,
              url := "/posts/" ++ comment.postId } }

/-- The push branch of the create-comment block for the post author: looks
the author up again and sends the push only when the looked-up document
exists and its notificationSettings.commentsOnMyPosts value is truthy. -/
def commentPushActions (post : PostDoc) (commenter : User) (findUser : String → Option User)
    (text : String) : List NotifyAction :=
  match findUser post.authorId with
  | some postAuthor =>
    if postAuthor.notificationSettings.commentsOnMyPosts == some true then
      [.push postAuthor (commentPushPayload commenter text post.id)]
    else []
  | none => []

/-- The push branch of the create-comment block for the parent comment
author, gated on notificationSettings.repliesToMyComments. -/
def replyPushActions (post : PostDoc) (parentAuthorId : String) (commenter : User)
    (findUser : String → Option User) (text : String) : List NotifyAction :=
  match findUser parentAuthorId with
  | some parentCommentAuthor =>
    if parentCommentAuthor.notificationSettings.repliesToMyComments == some true then
      [.push parentCommentAuthor (replyPushPayload commenter text post.id)]
    else []
  | none => []

/-- The asynchronous notification block of the create-comment route: the
post author part runs only when the post author differs from the commenter,
and the reply part only for a reply whose parent author differs from the
commenter; each part emits its in-app notification and then its
preference-gated push actions. -/
def commentRouteNotifications (post : PostDoc) (parentComment : Option CommentDoc)
    (commenter : User) (findUser : String → Option User) (text : String) : List NotifyAction :=
  (if post.authorId != commenter.id then
    .inApp post.authorId commenter.id "comment"
        (commenter.displayName ++ " commented on your post")
      :: commentPushActions post commenter findUser text
  else []) ++
  (match parentComment with
   | some parent =>
     if parent.authorId != commenter.id then
       .inApp parent.authorId commenter.id "reply"
           (commenter.displayName ++ " replied to your comment")
         :: replyPushActions post parent.authorId commenter findUser text
     else []
   | none => [])

/-- The comment-like route: toggles the like on the comment and, only on a
fresh like by someone other than the comment author, emits the in-app
notification and the preference-gated push; returns the updated comment and
the emitted actions. A missing liker document aborts the block inside its
try/catch before any action. -/
def likeCommentRoute (comment : CommentDoc) (userId : String)
    (findUser : String → Option User) : CommentDoc × List NotifyAction :=
  let isLiked := comment.likes.contains userId
  let comment' :=
    if isLiked then
      { comment with likes := comment.likes.filter fun i => i != userId,
                     likeCount := max 0 (comment.likeCount - 1) }
    else
      let likes' := comment.likes ++ [userId]
      { comment with likes := likes', likeCount := likes'.length }
  let actions :=
    if !isLiked && comment.authorId != userId then
      match findUser userId with
      | some liker =>
        .inApp comment.authorId userId "like" (liker.displayName ++ " liked your comment")
          :: (match findUser comment.authorId with
              | some commentAuthor =>
                if commentAuthor.notificationSettings.likesOnMyPosts == some true then
                  [.push commentAuthor (likeCommentPushPayload liker comment)]
                else []
              | none => [])
      | none => []
    else []
  (comment', actions)

/-- The post-like route (posts route, POST with id and like): toggles the
like on the post and returns the response; the handler contains no
notification or push code, so the emitted action list is empty by
construction. -/
def likePostRoute (post : PostDoc) (userId : String) : PostDoc × List NotifyAction :=
  let wasLiked := post.likes.contains userId
  let post' :=
    if wasLiked then
      { post with likes := post.likes.filter fun i => i != userId }
    else
      { post with likes := post.likes ++ [userId] }
  (post', [])

/-!
Device registry operations of backend/routes/push.js.
-/

/-- The deviceData object assembled by the subscribe route: credential
fields use or-undefined (a falsy input becomes an absent key), enabled is
forced to true and lastActiveAt to the current time. -/
def subscribeDeviceData (deviceId platform browser : String)
    (webPushSubscription fcmToken : Option String) (pushMethod : String) (now : Nat) : Device :=
  { deviceId := deviceId, platform := platform, browser := browser,
    webPushSubscription := webPushSubscription, fcmToken := fcmToken,
    pushMethod := pushMethod, lastActiveAt := now, enabled := true }

/-- Replace the first device whose deviceId matches, leaving every other
entry untouched (the JS find or findIndex followed by an in-place write). -/
def updateFirstDevice (devices : List Device) (deviceId : String) (f : Device → Device) :
    List Device :=
  match devices with
  | [] => []
  | d :: rest =>
    if d.deviceId == deviceId then f d :: rest
    else d :: updateFirstDevice rest deviceId f

/-- The subscribe route's upsert: when some device already has the incoming
deviceId, the entry at the found index is overwritten by the spread of the
old record with deviceData, which lists every schema field, so the merged
record is deviceData itself; otherwise deviceData is appended. -/
def upsertDevice (devices : List Device) (data : Device) : List Device :=
  if devices.any fun d => d.deviceId == data.deviceId then
    updateFirstDevice devices data.deviceId fun _ => data
  else
    devices ++ [data]

/-- The unsubscribe route: keeps exactly the devices whose deviceId differs
from the request's. -/
def removeDevice (devices : List Device) (deviceId : String) : List Device :=
  devices.filter fun d => d.deviceId != deviceId

/-- The field updates of the device-settings route applied to the found
device: enabled only when the request value is a boolean, pushMethod only
when it is one of the three allowed strings, and lastActiveAt always. -/
def patchDevice (enabled : Option Bool) (pushMethod : Option String) (now : Nat)
    (d : Device) : Device :=
  let d1 :=
    match enabled with
    | some b => { d with enabled := b }
    | none => d
  let d2 :=
    match pushMethod with
    | some m =>
      if !m.isEmpty && (m == "web-push" || m == "fcm" || m == "auto") then
        { d1 with pushMethod := m }
      else d1
    | none => d1
  { d2 with lastActiveAt := now }

/-- The device-settings route: answers not-found (none) when no device of
the user carries the requested deviceId, otherwise updates the first
matching device in place. -/
def updateDeviceSettings (devices : List Device) (deviceId : String)
    (enabled : Option Bool) (pushMethod : Option String) (now : Nat) : Option (List Device) :=
  if devices.any fun d => d.deviceId == deviceId then
    some (updateFirstDevice devices deviceId (patchDevice enabled pushMethod now))
  else
    none

/-!
Claims. Each claim of the specification is settled by one theorem below,
with a closed counterexample where the claim as stated fails on the code.
-/

/-- C1: counterexample. A user who follows the author but whose stored
postsFromFollowed preference is unset is excluded by the create-post
followers query, and a post author whose commentsOnMyPosts value is unset
receives no push from the create-comment block, although the claim says an
unset preference is treated as opted-in. -/
theorem C1_counterexample :
    findFollowers
        [{ id := "bob", following := ["alice"],
           notificationSettings := { postsFromFollowed := none } }] "alice" = [] ∧
    commentPushActions { id := "p1", authorId := "ann" } { id := "bob" }
        (fun i => if i == "ann" then
            some { id := "ann", notificationSettings := { commentsOnMyPosts := none } }
          else none) "hi" = [] := by
  exact ⟨rfl, rfl⟩

/-- C1 (amended): a candidate recipient is included only when the relevant
preference is explicitly true. The create-post followers query returns
exactly the users who follow the author and whose stored postsFromFollowed
field is literally true (unset and false both exclude); the create-comment
push to the post author is emitted exactly when the looked-up author's
commentsOnMyPosts value is the boolean true (unset and false both
exclude). -/
theorem C1_explicit_true_required :
    (∀ (store : List User) (authorId : String) (u : User),
      u ∈ findFollowers store authorId ↔
        u ∈ store ∧ u.following.contains authorId = true ∧
          u.notificationSettings.postsFromFollowed = some true) ∧
    (∀ (post : PostDoc) (commenter : User) (findUser : String → Option User)
        (text : String) (postAuthor : User),
      findUser post.authorId = some postAuthor →
        commentPushActions post commenter findUser text =
          if postAuthor.notificationSettings.commentsOnMyPosts = some true then
            [.push postAuthor (commentPushPayload commenter text post.id)]
          else []) := by
  constructor
  · intro store authorId u
    simp [findFollowers, List.mem_filter, beq_iff_eq, and_assoc]
  · intro post commenter findUser text postAuthor h
    simp only [commentPushActions, h, beq_iff_eq]

/-- C1 witness: the amended theorem applied to a concrete post author with
commentsOnMyPosts explicitly true, for whom the push action is emitted. -/
theorem C1_explicit_true_required_witness :
    commentPushActions { id := "p1", authorId := "ann" } { id := "bob" }
        (fun _ => some { id := "ann", notificationSettings := { commentsOnMyPosts := some true } })
        "hi" =
      [.push { id := "ann", notificationSettings := { commentsOnMyPosts := some true } }
        (commentPushPayload { id := "bob" } "hi" "p1")] := by
  have h := C1_explicit_true_required.2 { id := "p1", authorId := "ann" } { id := "bob" }
    (fun _ => some { id := "ann", notificationSettings := { commentsOnMyPosts := some true } })
    "hi" { id := "ann", notificationSettings := { commentsOnMyPosts := some true } } rfl
  simpa using h

/-- The success field of a per-user result is never the value true: the
failure shapes carry false and a devices report carries no success key, so
a truthiness test on it always fails. -/
theorem UserResult.successTruthy_eq_false (r : UserResult) : r.successTruthy = false := by
  cases r <;> rfl

/-- C2: counterexample. In the FCMPushService variant a recipient with one
enabled tokened device whose only send fails is still counted in the
summary's successful count (1, not 0), because the per-user devices report
has no success key and the filter keeps every entry whose success field is
not literally false; in the HybridPushService variant a recipient whose
only send succeeds is counted as unreached (successful = 0), because the
truthiness filter never accepts a devices report. -/
theorem C2_counterexample :
    (FCMPushService.sendToUsers true
        [{ id := "u1", devices := [{ deviceId := "d1", platform := "web", fcmToken := some "t" }] }]
        (fun _ => .resolves fun _ => .resolves (.err "boom"))).summary.successful = 1 ∧
    (FCMPushService.sendToUsers true
        [{ id := "u1", devices := [{ deviceId := "d1", platform := "web", fcmToken := some "t" }] }]
        (fun _ => .resolves fun _ => .resolves (.err "boom"))).results =
      [{ userId := "u1", result := .report { total := 1, successful := 0, failed := 1, results := [{ success := false, method := some "fcm", error := some "boom", deviceId := some "d1", pushMethod := some "fcm" }] } }] ∧
    (HybridPushService.sendToUsers { isFirebaseInitialized := true, isWebPushInitialized := true }
        [{ id := "u1", devices := [{ deviceId := "d1", platform := "web", fcmToken := some "t" }] }]
        (fun _ => .resolves fun _ => .resolves (.ok "ok1"))).summary.successful = 0 := by
  exact ⟨rfl, rfl, rfl⟩

/-- C2 (amended): the user-level successful count does not consult the
per-device outcomes. In the FCMPushService variant it equals the number of
users whose per-user call resolved and who own at least one enabled device
with an FCM token, whatever the sends returned; in the HybridPushService
variant it is always zero. The batch report itself is always produced, with
one entry per recipient and totalUsers equal to the user count, in both
variants. -/
theorem C2_successful_count_ignores_outcomes :
    (∀ (isInit : Bool) (users : List User) (uenv : User → UserCall),
      (FCMPushService.sendToUsers isInit users uenv).summary.successful =
        (users.filter fun u =>
          (uenv u).isResolves &&
            !(u.devices.filter fun d => d.enabled && d.hasFcmToken).isEmpty).length) ∧
    (∀ (svc : HybridPushService) (users : List User) (uenv : User → UserCall),
      (HybridPushService.sendToUsers svc users uenv).summary.successful = 0) ∧
    (∀ (isInit : Bool) (users : List User) (uenv : User → UserCall),
      (FCMPushService.sendToUsers isInit users uenv).results.length = users.length ∧
      (FCMPushService.sendToUsers isInit users uenv).totalUsers = users.length) ∧
    (∀ (svc : HybridPushService) (users : List User) (uenv : User → UserCall),
      (HybridPushService.sendToUsers svc users uenv).results.length = users.length ∧
      (HybridPushService.sendToUsers svc users uenv).totalUsers = users.length) := by
  refine ⟨?_, ?_, ?_, ?_⟩
  · intro isInit users uenv
    simp only [FCMPushService.sendToUsers, List.filter_map, List.length_map]
    congr 1
    apply List.filter_congr
    intro u _
    cases h : uenv u with
    | resolves denv =>
        simp only [Function.comp, h, UserCall.isResolves, FCMPushService.sendToUser,
          UserResult.successIsFalse, UserResult.successField]
        rcases hd : u.devices.filter fun d => d.enabled && d.hasFcmToken with _ | ⟨a, l⟩
        · simp [hd, UserResult.successIsFalse, UserResult.successField]
        · simp [hd, UserResult.successIsFalse, UserResult.successField]
    | rejects msg =>
        simp [Function.comp, h, UserCall.isResolves, UserResult.successIsFalse,
          UserResult.successField]
  · intro svc users uenv
    simp [HybridPushService.sendToUsers, UserResult.successTruthy_eq_false]
  · intro isInit users uenv
    constructor <;> simp [FCMPushService.sendToUsers]
  · intro svc users uenv
    constructor <;> simp [HybridPushService.sendToUsers]

/-- Length of a truncation: the kept characters plus the three-character
ellipsis. -/
theorem truncateWithEllipsis_length (n : Nat) (text : String) :
    (truncateWithEllipsis n text).length = min n text.length + 3 := by
  unfold truncateWithEllipsis
  rw [String.length_append]
  show (text.data.take n).length + 3 = _
  rw [List.length_take]
  rfl

set_option maxRecDepth 4000 in
/-- C3: counterexample. A 300-character post text yields a new_post payload
body of 103 characters (the first 100 characters plus the ellipsis), not
the 100 characters the claim states: the route truncates at 100 characters
and appends the three ellipsis dots on top. -/
theorem C3_counterexample :
    (newPostPushPayload { id := "a", displayName := "Al" }
        (String.mk (List.replicate 300 'a')) "p1").body.length = 103 ∧
    (newPostPushPayload { id := "a", displayName := "Al" }
        (String.mk (List.replicate 300 'a')) "p1").body =
      String.mk (List.replicate 100 'a') ++ "..." := by
  exact ⟨rfl, rfl⟩

/-- C3 (amended): for text over 100 characters the new_post body is the
first 100 characters followed by the ellipsis, hence exactly 103 characters
long; the 50-character rule for comment, reply and like bodies holds as
claimed: text over 50 characters gives the first 47 characters plus the
ellipsis, exactly 50 characters. -/
theorem C3_truncation_lengths :
    (∀ (author : User) (text postId : String), text.length > 100 →
      (newPostPushPayload author text postId).body = truncateWithEllipsis 100 text ∧
      (newPostPushPayload author text postId).body.length = 103) ∧
    (∀ (commenter : User) (text postId : String), text.length > 50 →
      (commentPushPayload commenter text postId).body = truncateWithEllipsis 47 text ∧
      (commentPushPayload commenter text postId).body.length = 50 ∧
      (replyPushPayload commenter text postId).body.length = 50) ∧
    (∀ (liker : User) (comment : CommentDoc), comment.text.length > 50 →
      (likeCommentPushPayload liker comment).body.length = 50) := by
  refine ⟨?_, ?_, ?_⟩
  · intro author text postId h
    constructor
    · simp [newPostPushPayload, h]
    · simp [newPostPushPayload, h, truncateWithEllipsis_length, Nat.min_eq_left (le_of_lt h)]
  · intro commenter text postId h
    have h47 : min 47 text.length = 47 := Nat.min_eq_left (by omega)
    refine ⟨?_, ?_, ?_⟩
    · simp [commentPushPayload, h]
    · simp [commentPushPayload, h, truncateWithEllipsis_length, h47]
    · simp [replyPushPayload, h, truncateWithEllipsis_length, h47]
  · intro liker comment h
    have h47 : min 47 comment.text.length = 47 := Nat.min_eq_left (by omega)
    simp [likeCommentPushPayload, h, truncateWithEllipsis_length, h47]

set_option maxRecDepth 4000 in
/-- C3 witness: the amended theorem applied to concrete over-limit texts. -/
theorem C3_truncation_lengths_witness :
    (newPostPushPayload { id := "a", displayName := "Al" }
        (String.mk (List.replicate 101 'b')) "p1").body.length = 103 ∧
    (commentPushPayload { id := "c", displayName := "Cy" }
        (String.mk (List.replicate 51 'b')) "p1").body.length = 50 ∧
    (likeCommentPushPayload { id := "c" }
        { id := "m1", postId := "p1", authorId := "z",
          text := String.mk (List.replicate 51 'b') }).body.length = 50 := by
  refine ⟨?_, ?_, ?_⟩
  · exact (C3_truncation_lengths.1 { id := "a", displayName := "Al" }
      (String.mk (List.replicate 101 'b')) "p1" (by decide)).2
  · exact (C3_truncation_lengths.2.1 { id := "c", displayName := "Cy" }
      (String.mk (List.replicate 51 'b')) "p1" (by decide)).2.1
  · exact C3_truncation_lengths.2.2 { id := "c" }
      { id := "m1", postId := "p1", authorId := "z",
        text := String.mk (List.replicate 51 'b') } (by decide)

/-- C4: counterexample. A user liking someone else's post goes through the
post-like route, which toggles the like and emits no notification action at
all: the post's author is never a push recipient of a post like, contrary
to the claim that liking a post triggers the notification fan-out. -/
theorem C4_counterexample :
    (likePostRoute { id := "p1", authorId := "alice", likes := [] } "bob").2 = [] ∧
    (likePostRoute { id := "p1", authorId := "alice", likes := [] } "bob").1.likes = ["bob"] ∧
    ("bob" : String) ≠ "alice" := by
  exact ⟨rfl, rfl, by decide⟩

/-- C4 (amended): the post-like route emits no notification action for any
input; only the comment-like route triggers the fan-out path. For a fresh
like by a non-author with both user documents resolving, the emitted
actions are exactly the in-app notification to the comment's author
followed by the push to them when their likesOnMyPosts value is explicitly
true and by nothing otherwise: the push recipients are [author] exactly
when the preference is the boolean true, and empty for an unset or false
preference. -/
theorem C4_like_notifications :
    (∀ (post : PostDoc) (userId : String), (likePostRoute post userId).2 = []) ∧
    (∀ (comment : CommentDoc) (userId : String) (findUser : String → Option User)
        (liker commentAuthor : User),
      findUser userId = some liker →
      findUser comment.authorId = some commentAuthor →
      comment.likes.contains userId = false →
      comment.authorId ≠ userId →
      (likeCommentRoute comment userId findUser).2 =
        .inApp comment.authorId userId "like" (liker.displayName ++ " liked your comment")
          :: (if commentAuthor.notificationSettings.likesOnMyPosts = some true then
                [.push commentAuthor (likeCommentPushPayload liker comment)]
              else []) ∧
      pushRecipientIds (likeCommentRoute comment userId findUser).2 =
        (if commentAuthor.notificationSettings.likesOnMyPosts = some true
         then [commentAuthor.id] else [])) := by
  constructor
  · intro post userId
    rfl
  · intro comment userId findUser liker commentAuthor h1 h2 h3 h4
    have h3' : userId ∉ comment.likes := by simpa using h3
    by_cases hp : commentAuthor.notificationSettings.likesOnMyPosts = some true
    · constructor <;>
        simp [likeCommentRoute, pushRecipientIds, h1, h2, h3', h4, hp, bne_iff_ne, beq_iff_eq]
    · constructor <;>
        simp [likeCommentRoute, pushRecipientIds, h1, h2, h3', h4, hp, bne_iff_ne, beq_iff_eq]

/-- C4 witness: the amended theorem applied to a concrete fresh comment
like by a non-author, once with the author's preference explicitly true
(push emitted) and once with it unset (no push). -/
theorem C4_like_notifications_witness :
    pushRecipientIds
        (likeCommentRoute { id := "m1", postId := "p1", authorId := "ann", text := "t" } "bob"
          (fun i => if i == "bob" then some { id := "bob", displayName := "Bo" }
            else some { id := "ann", notificationSettings := { likesOnMyPosts := some true } })).2 =
      ["ann"] ∧
    pushRecipientIds
        (likeCommentRoute { id := "m1", postId := "p1", authorId := "ann", text := "t" } "bob"
          (fun i => if i == "bob" then some { id := "bob", displayName := "Bo" }
            else some { id := "ann", notificationSettings := { likesOnMyPosts := none } })).2 =
      [] := by
  constructor
  · have h := (C4_like_notifications.2
      { id := "m1", postId := "p1", authorId := "ann", text := "t" } "bob"
      (fun i => if i == "bob" then some { id := "bob", displayName := "Bo" }
        else some { id := "ann", notificationSettings := { likesOnMyPosts := some true } })
      { id := "bob", displayName := "Bo" }
      { id := "ann", notificationSettings := { likesOnMyPosts := some true } }
      rfl rfl rfl (by decide)).2
    simpa using h
  · have h := (C4_like_notifications.2
      { id := "m1", postId := "p1", authorId := "ann", text := "t" } "bob"
      (fun i => if i == "bob" then some { id := "bob", displayName := "Bo" }
        else some { id := "ann", notificationSettings := { likesOnMyPosts := none } })
      { id := "bob", displayName := "Bo" }
      { id := "ann", notificationSettings := { likesOnMyPosts := none } }
      rfl rfl rfl (by decide)).2
    simpa using h

/-- C5 (confirmed): both sendToDevices variants are total functions into a
report (the aggregate never rejects), the per-device outcome list has
exactly one entry per input device, the device total equals the input
length, and a per-device call that rejects is converted by the attached
catch into a failed outcome tagged with that device's id at that device's
position, leaving every sibling entry in place. -/
theorem C5_per_device_isolation :
    (∀ (isInit : Bool) (devices : List Device) (env : Device → DeviceCall),
      (FCMPushService.sendToDevices isInit devices env).results.length = devices.length ∧
      (FCMPushService.sendToDevices isInit devices env).total = devices.length) ∧
    (∀ (svc : HybridPushService) (devices : List Device) (env : Device → DeviceCall),
      (HybridPushService.sendToDevices svc devices env).results.length = devices.length ∧
      (HybridPushService.sendToDevices svc devices env).total = devices.length) ∧
    (∀ (isInit : Bool) (devices : List Device) (env : Device → DeviceCall)
        (i : Nat) (msg : String) (h : i < devices.length),
      env devices[i] = .rejects msg →
      (FCMPushService.sendToDevices isInit devices env).results[i]? =
        some { success := false, deviceId := some devices[i].deviceId, error := some msg }) ∧
    (∀ (svc : HybridPushService) (devices : List Device) (env : Device → DeviceCall)
        (i : Nat) (msg : String) (h : i < devices.length),
      env devices[i] = .rejects msg →
      (HybridPushService.sendToDevices svc devices env).results[i]? =
        some { success := false, deviceId := some devices[i].deviceId, error := some msg }) := by
  refine ⟨?_, ?_, ?_, ?_⟩
  · intro isInit devices env
    constructor <;> simp [FCMPushService.sendToDevices]
  · intro svc devices env
    constructor <;> simp [HybridPushService.sendToDevices]
  · intro isInit devices env i msg h henv
    simp only [FCMPushService.sendToDevices]
    rw [List.getElem?_map, List.getElem?_eq_getElem h]
    simp [henv]
  · intro svc devices env i msg h henv
    simp only [HybridPushService.sendToDevices]
    rw [List.getElem?_map, List.getElem?_eq_getElem h]
    simp [henv]

/-- C5 witness: a two-device batch in which the second call rejects still
produces a two-entry outcome list whose second entry is the converted
failure tagged with the second device's id. -/
theorem C5_per_device_isolation_witness :
    (FCMPushService.sendToDevices true
        [{ deviceId := "d1", platform := "web", fcmToken := some "t1" },
         { deviceId := "d2", platform := "web", fcmToken := some "t2" }]
        (fun d => if d.deviceId == "d2" then .rejects "socket hang up"
          else .resolves (.ok "mid1"))).results.length = 2 ∧
    (FCMPushService.sendToDevices true
        [{ deviceId := "d1", platform := "web", fcmToken := some "t1" },
         { deviceId := "d2", platform := "web", fcmToken := some "t2" }]
        (fun d => if d.deviceId == "d2" then .rejects "socket hang up"
          else .resolves (.ok "mid1"))).results[1]? =
      some { success := false, deviceId := some "d2", error := some "socket hang up" } := by
  constructor
  · exact (C5_per_device_isolation.1 true
      [{ deviceId := "d1", platform := "web", fcmToken := some "t1" },
       { deviceId := "d2", platform := "web", fcmToken := some "t2" }]
      (fun d => if d.deviceId == "d2" then .rejects "socket hang up"
        else .resolves (.ok "mid1"))).1
  · exact C5_per_device_isolation.2.2.1 true
      [{ deviceId := "d1", platform := "web", fcmToken := some "t1" },
       { deviceId := "d2", platform := "web", fcmToken := some "t2" }]
      (fun d => if d.deviceId == "d2" then .rejects "socket hang up"
        else .resolves (.ok "mid1")) 1 "socket hang up" (by decide) rfl

/-- C6 (confirmed): the transport send operations are total functions into
a structured result (never raising past their boundary): they succeed
exactly when the transport is initialized and the remote call resolves, and
every failure result, whether from the uninitialized short-circuit or from
a thrown remote error, carries an error reason. -/
theorem C6_transport_never_raises :
    (∀ (isInit : Bool) (remote : RemoteOutcome),
      ((FCMPushService.sendFCMPush isInit remote).success = true ↔
        isInit = true ∧ ∃ r, remote = .ok r) ∧
      ((FCMPushService.sendFCMPush isInit remote).success = false →
        (FCMPushService.sendFCMPush isInit remote).error.isSome = true)) ∧
    (∀ (svc : HybridPushService) (remote : RemoteOutcome),
      ((HybridPushService.sendFCMPush svc remote).success = true ↔
        svc.isFirebaseInitialized = true ∧ ∃ r, remote = .ok r) ∧
      ((HybridPushService.sendFCMPush svc remote).success = false →
        (HybridPushService.sendFCMPush svc remote).error.isSome = true) ∧
      ((HybridPushService.sendWebPush svc remote).success = true ↔
        svc.isWebPushInitialized = true ∧ ∃ r, remote = .ok r) ∧
      ((HybridPushService.sendWebPush svc remote).success = false →
        (HybridPushService.sendWebPush svc remote).error.isSome = true)) := by
  constructor
  · intro isInit remote
    cases isInit <;> cases remote <;>
      simp [FCMPushService.sendFCMPush]
  · intro svc remote
    obtain ⟨fb, wp⟩ := svc
    cases fb <;> cases wp <;> cases remote <;>
      simp [HybridPushService.sendFCMPush, HybridPushService.sendWebPush]

/-- C6 witness: every failing configuration at a concrete input yields a
structured failure with an error reason present. -/
theorem C6_transport_never_raises_witness :
    (FCMPushService.sendFCMPush false (.err "boom")).error.isSome = true ∧
    (HybridPushService.sendFCMPush { isFirebaseInitialized := true, isWebPushInitialized := false }
      (.err "quota exceeded")).error.isSome = true ∧
    (HybridPushService.sendWebPush { isFirebaseInitialized := true, isWebPushInitialized := false }
      (.ok "r")).error.isSome = true := by
  refine ⟨?_, ?_, ?_⟩
  · exact (C6_transport_never_raises.1 false (.err "boom")).2 rfl
  · exact (C6_transport_never_raises.2
      { isFirebaseInitialized := true, isWebPushInitialized := false } (.err "quota exceeded")).2.1 rfl
  · exact (C6_transport_never_raises.2
      { isFirebaseInitialized := true, isWebPushInitialized := false } (.ok "r")).2.2.2 rfl

/-- C7: counterexample. In the HybridPushService variant an enabled device
with no credential at all (no FCM token, no web-push subscription) is still
selected: the user's report counts it in the device total as a failure with
reason "No available push method", although the claim says the selected
devices are exactly those with enabled = true and a non-empty transport
credential, which would leave this user with no selected device. -/
theorem C7_counterexample :
    HybridPushService.sendToUser { isFirebaseInitialized := true, isWebPushInitialized := true }
        { id := "u1", devices := [{ deviceId := "d1", platform := "web" }] }
        (fun _ => .resolves (.ok "x")) =
      .report { total := 1, successful := 0, failed := 1,
                results := [{ success := false, reason := some "No available push method" }] } ∧
    (({ deviceId := "d1", platform := "web" } : Device).enabled = true ∧
     ({ deviceId := "d1", platform := "web" } : Device).fcmToken = none ∧
     ({ deviceId := "d1", platform := "web" } : Device).webPushSubscription = none) := by
  exact ⟨rfl, rfl, rfl, rfl⟩

/-- C7 (amended): the FCMPushService variant selects exactly the devices
with enabled = true and a truthy (non-empty) FCM token, and its report's
device total counts exactly those; the HybridPushService variant selects
exactly the enabled devices regardless of credentials, so a credential-less
enabled device is counted in the total (as a failure) even though no
transport call is made for it. In both variants a disabled device is
excluded from the total entirely and short-circuits before any transport
call when sent to directly. -/
theorem C7_device_selection :
    (∀ (isInit : Bool) (u : User) (env : Device → DeviceCall),
      match FCMPushService.sendToUser isInit u env with
      | .noEnabled _ => u.devices.filter (fun d => d.enabled && d.hasFcmToken) = []
      | .report r =>
          r.total = (u.devices.filter fun d => d.enabled && d.hasFcmToken).length ∧
          r.results.length = r.total
      | .errored _ => False) ∧
    (∀ (svc : HybridPushService) (u : User) (env : Device → DeviceCall),
      match HybridPushService.sendToUser svc u env with
      | .noEnabled _ => u.devices.filter (fun d => d.enabled) = []
      | .report r =>
          r.total = (u.devices.filter fun d => d.enabled).length ∧
          r.results.length = r.total
      | .errored _ => False) ∧
    (∀ (isInit : Bool) (d : Device) (remote : RemoteOutcome), d.enabled = false →
      FCMPushService.sendToDevice isInit d remote =
        { success := false, reason := some "Device disabled" }) ∧
    (∀ (svc : HybridPushService) (d : Device) (remote : RemoteOutcome), d.enabled = false →
      HybridPushService.sendToDevice svc d remote =
        { success := false, reason := some "Device disabled" }) := by
  refine ⟨?_, ?_, ?_, ?_⟩
  · intro isInit u env
    by_cases h : (u.devices.filter fun d => d.enabled && d.hasFcmToken).length = 0
    · simp [FCMPushService.sendToUser, h, List.length_eq_zero.mp h]
    · simp [FCMPushService.sendToUser, h, FCMPushService.sendToDevices]
  · intro svc u env
    by_cases h : (u.devices.filter fun d => d.enabled).length = 0
    · simp [HybridPushService.sendToUser, h, List.length_eq_zero.mp h]
    · simp [HybridPushService.sendToUser, h, HybridPushService.sendToDevices]
  · intro isInit d remote h
    simp [FCMPushService.sendToDevice, h]
  · intro svc d remote h
    simp [HybridPushService.sendToDevice, h]

/-- C7 witness: a disabled device short-circuits before any transport call
in both variants, at a concrete device. -/
theorem C7_device_selection_witness :
    FCMPushService.sendToDevice true
        { deviceId := "d9", platform := "web", fcmToken := some "t", enabled := false }
        (.ok "x") = { success := false, reason := some "Device disabled" } ∧
    HybridPushService.sendToDevice { isFirebaseInitialized := true, isWebPushInitialized := true }
        { deviceId := "d9", platform := "web", fcmToken := some "t", enabled := false }
        (.ok "x") = { success := false, reason := some "Device disabled" } := by
  constructor
  · exact C7_device_selection.2.2.1 true
      { deviceId := "d9", platform := "web", fcmToken := some "t", enabled := false } (.ok "x") rfl
  · exact C7_device_selection.2.2.2
      { isFirebaseInitialized := true, isWebPushInitialized := true }
      { deviceId := "d9", platform := "web", fcmToken := some "t", enabled := false } (.ok "x") rfl

/-- C8 (confirmed): the actor is never notified about their own action.
Commenting on one's own post emits no notification action, replying to
one's own comment under one's own post emits none, and liking one's own
comment emits none: in every case the self-check guard precedes every
in-app and push action, so the resolved recipient set is empty. -/
theorem C8_self_notification_suppressed :
    (∀ (post : PostDoc) (commenter : User) (findUser : String → Option User) (text : String),
      post.authorId = commenter.id →
      commentRouteNotifications post none commenter findUser text = []) ∧
    (∀ (post : PostDoc) (parent : CommentDoc) (commenter : User)
        (findUser : String → Option User) (text : String),
      post.authorId = commenter.id → parent.authorId = commenter.id →
      commentRouteNotifications post (some parent) commenter findUser text = []) ∧
    (∀ (comment : CommentDoc) (userId : String) (findUser : String → Option User),
      comment.authorId = userId →
      (likeCommentRoute comment userId findUser).2 = []) := by
  refine ⟨?_, ?_, ?_⟩
  · intro post commenter findUser text h
    simp [commentRouteNotifications, h]
  · intro post parent commenter findUser text h1 h2
    simp [commentRouteNotifications, h1, h2]
  · intro comment userId findUser h
    simp [likeCommentRoute, h]

/-- C8 witness: a concrete user commenting on, replying under, and liking
their own content receives nothing. -/
theorem C8_self_notification_suppressed_witness :
    commentRouteNotifications { id := "p1", authorId := "ann" } none { id := "ann" }
        (fun _ => none) "hi" = [] ∧
    commentRouteNotifications { id := "p1", authorId := "ann" }
        (some { id := "m0", postId := "p1", authorId := "ann" }) { id := "ann" }
        (fun _ => none) "hi" = [] ∧
    (likeCommentRoute { id := "m1", postId := "p1", authorId := "ann" } "ann"
        (fun _ => none)).2 = [] := by
  refine ⟨?_, ?_, ?_⟩
  · exact C8_self_notification_suppressed.1 { id := "p1", authorId := "ann" } { id := "ann" }
      (fun _ => none) "hi" rfl
  · exact C8_self_notification_suppressed.2.1 { id := "p1", authorId := "ann" }
      { id := "m0", postId := "p1", authorId := "ann" } { id := "ann" } (fun _ => none) "hi" rfl rfl
  · exact C8_self_notification_suppressed.2.2 { id := "m1", postId := "p1", authorId := "ann" }
      "ann" (fun _ => none) rfl

/-- Replacing the first matching device preserves the list length. -/
theorem updateFirstDevice_length (l : List Device) (did : String) (f : Device → Device) :
    (updateFirstDevice l did f).length = l.length := by
  induction l with
  | nil => rfl
  | cons d rest ih =>
    simp only [updateFirstDevice]
    split <;> simp [ih]

/-- When some device matches, overwriting the first match with a constant
record puts that record in the list. -/
theorem mem_updateFirstDevice_self (l : List Device) (data : Device)
    (h : l.any (fun d => d.deviceId == data.deviceId) = true) :
    data ∈ updateFirstDevice l data.deviceId (fun _ => data) := by
  induction l with
  | nil => simp at h
  | cons d rest ih =>
    simp only [updateFirstDevice]
    by_cases hd : d.deviceId = data.deviceId
    · simp [hd]
    · have hb : (d.deviceId == data.deviceId) = false := by simp [hd]
      have hrest : rest.any (fun x => x.deviceId == data.deviceId) = true := by
        simp only [List.any_cons, hb, Bool.false_or] at h
        exact h
      simp only [hb, Bool.false_eq_true, if_false, List.mem_cons]
      exact Or.inr (ih hrest)

/-- After removal no device with the removed id remains. -/
theorem removeDevice_any_false (l : List Device) (did : String) :
    (removeDevice l did).any (fun d => d.deviceId == did) = false := by
  rw [List.any_eq_false]
  intro x hx
  have hne := (List.mem_filter.1 hx).2
  simp only [bne_iff_ne, ne_eq] at hne
  simp [hne]

/-- Filtering the removed id out of a removal result yields nothing. -/
theorem filter_removeDevice_self (l : List Device) (did : String) :
    (removeDevice l did).filter (fun d => d.deviceId == did) = [] := by
  rw [List.filter_eq_nil]
  intro x hx
  have hne := (List.mem_filter.1 hx).2
  simp only [bne_iff_ne, ne_eq] at hne
  simp [hne]

/-- Every position of updateFirstDevice holds either the original entry or,
when the original entry's id matches, its image under the update. -/
theorem updateFirstDevice_getElem? (l : List Device) (did : String) (f : Device → Device) :
    ∀ i : Nat, (updateFirstDevice l did f)[i]? = l[i]? ∨
      ∃ d, l[i]? = some d ∧ d.deviceId = did ∧ (updateFirstDevice l did f)[i]? = some (f d) := by
  induction l with
  | nil => intro i; left; rfl
  | cons x rest ih =>
    intro i
    by_cases hx : x.deviceId = did
    · have hb : (x.deviceId == did) = true := by simp [hx]
      cases i with
      | zero => right; exact ⟨x, by simp, hx, by simp [updateFirstDevice, hb]⟩
      | succ n => left; simp [updateFirstDevice, hb]
    · have hb : (x.deviceId == did) = false := by simp [hx]
      cases i with
      | zero => left; simp [updateFirstDevice, hb]
      | succ n =>
        have h := ih n
        simp only [updateFirstDevice, hb, Bool.false_eq_true, if_false, List.getElem?_cons_succ]
        exact h

/-- updateFirstDevice changes at most one position. -/
theorem updateFirstDevice_changed_unique (l : List Device) (did : String) (f : Device → Device) :
    ∀ i j : Nat, (updateFirstDevice l did f)[i]? ≠ l[i]? →
      (updateFirstDevice l did f)[j]? ≠ l[j]? → i = j := by
  induction l with
  | nil => intro i j hi _; exact absurd rfl hi
  | cons x rest ih =>
    intro i j hi hj
    by_cases hx : x.deviceId = did
    · have hb : (x.deviceId == did) = true := by simp [hx]
      cases i with
      | zero =>
        cases j with
        | zero => rfl
        | succ m => exact absurd (by simp [updateFirstDevice, hb]) hj
      | succ n => exact absurd (by simp [updateFirstDevice, hb]) hi
    · have hb : (x.deviceId == did) = false := by simp [hx]
      cases i with
      | zero => exact absurd (by simp [updateFirstDevice, hb]) hi
      | succ n =>
        cases j with
        | zero => exact absurd (by simp [updateFirstDevice, hb]) hj
        | succ m =>
          have hn : (updateFirstDevice rest did f)[n]? ≠ rest[n]? := by
            simpa [updateFirstDevice, hb] using hi
          have hm : (updateFirstDevice rest did f)[m]? ≠ rest[m]? := by
            simpa [updateFirstDevice, hb] using hj
          exact congrArg Nat.succ (ih n m hn hm)

/-- C9 (confirmed): device registration is an idempotent upsert keyed by
deviceId. Re-registering an id already present replaces the matched record
with the fresh deviceData (whose enabled is forced true, lastActiveAt is
the current time, and platform and credentials are the request's values)
without changing the device count; and unregistering followed by
re-registering the same id leaves exactly one record with that id. -/
theorem C9_register_idempotent_upsert :
    (∀ (devices : List Device) (did platform browser : String) (wps tok : Option String)
        (pm : String) (now : Nat),
      devices.any (fun d => d.deviceId == did) = true →
      (upsertDevice devices (subscribeDeviceData did platform browser wps tok pm now)).length =
        devices.length ∧
      subscribeDeviceData did platform browser wps tok pm now ∈
        upsertDevice devices (subscribeDeviceData did platform browser wps tok pm now) ∧
      (subscribeDeviceData did platform browser wps tok pm now).enabled = true ∧
      (subscribeDeviceData did platform browser wps tok pm now).lastActiveAt = now ∧
      (subscribeDeviceData did platform browser wps tok pm now).fcmToken = tok ∧
      (subscribeDeviceData did platform browser wps tok pm now).webPushSubscription = wps ∧
      (subscribeDeviceData did platform browser wps tok pm now).platform = platform) ∧
    (∀ (devices : List Device) (did platform browser : String) (wps tok : Option String)
        (pm : String) (now : Nat),
      ((upsertDevice (removeDevice devices did)
          (subscribeDeviceData did platform browser wps tok pm now)).filter
        (fun d => d.deviceId == did)) =
        [subscribeDeviceData did platform browser wps tok pm now]) := by
  constructor
  · intro devices did platform browser wps tok pm now h
    have hid : (subscribeDeviceData did platform browser wps tok pm now).deviceId = did := rfl
    refine ⟨?_, ?_, rfl, rfl, rfl, rfl, rfl⟩
    · simp only [upsertDevice, hid, h, if_true]
      exact updateFirstDevice_length devices did (fun _ => _)
    · simp only [upsertDevice, hid, h, if_true]
      exact mem_updateFirstDevice_self devices _ h
  · intro devices did platform browser wps tok pm now
    have hany := removeDevice_any_false devices did
    have hid : (subscribeDeviceData did platform browser wps tok pm now).deviceId = did := rfl
    simp only [upsertDevice, hid]
    rw [if_neg (by simp [hany])]
    rw [List.filter_append, filter_removeDevice_self]
    simp [hid]

/-- C9 witness: re-registering the only device of a user keeps one device
record whose credential is the new one, and the unregister-register round
trip at a concrete id leaves exactly one record. -/
theorem C9_register_idempotent_upsert_witness :
    (upsertDevice [{ deviceId := "d1", platform := "web", fcmToken := some "old" }]
        (subscribeDeviceData "d1" "web" "chrome" none (some "new") "auto" 5)).length = 1 ∧
    ((upsertDevice (removeDevice [{ deviceId := "d1", platform := "web", fcmToken := some "old" }] "d1")
        (subscribeDeviceData "d1" "web" "chrome" none (some "new") "auto" 5)).filter
      (fun d => d.deviceId == "d1")) =
      [subscribeDeviceData "d1" "web" "chrome" none (some "new") "auto" 5] := by
  constructor
  · exact (C9_register_idempotent_upsert.1
      [{ deviceId := "d1", platform := "web", fcmToken := some "old" }]
      "d1" "web" "chrome" none (some "new") "auto" 5 (by decide)).1
  · exact C9_register_idempotent_upsert.2
      [{ deviceId := "d1", platform := "web", fcmToken := some "old" }]
      "d1" "web" "chrome" none (some "new") "auto" 5

/-- C10 (confirmed): every registry write touches at most the device whose
deviceId matches the request. The subscribe upsert leaves every position
unchanged except possibly one whose entry's id matches (replaced by the
request's data), and appends when no id matches; unsubscribe keeps exactly
the non-matching records in their original order; the settings update keeps
every position except possibly one matching entry, and on the patched
record it leaves deviceId, platform, browser, webPushSubscription and
fcmToken (every field not named in the operation) unchanged. -/
theorem C10_registry_frame :
    (∀ (devices : List Device) (data : Device) (i : Nat),
      devices.any (fun d => d.deviceId == data.deviceId) = true →
      (upsertDevice devices data)[i]? = devices[i]? ∨
        ∃ d, devices[i]? = some d ∧ d.deviceId = data.deviceId ∧
          (upsertDevice devices data)[i]? = some data) ∧
    (∀ (devices : List Device) (data : Device) (i j : Nat),
      devices.any (fun d => d.deviceId == data.deviceId) = true →
      (upsertDevice devices data)[i]? ≠ devices[i]? →
      (upsertDevice devices data)[j]? ≠ devices[j]? → i = j) ∧
    (∀ (devices : List Device) (data : Device),
      devices.any (fun d => d.deviceId == data.deviceId) = false →
      upsertDevice devices data = devices ++ [data]) ∧
    (∀ (devices : List Device) (did : String) (d : Device),
      (d ∈ removeDevice devices did ↔ d ∈ devices ∧ d.deviceId ≠ did)) ∧
    (∀ (devices : List Device) (did : String),
      List.Sublist (removeDevice devices did) devices) ∧
    (∀ (enabled : Option Bool) (pm : Option String) (now : Nat) (d : Device),
      (patchDevice enabled pm now d).deviceId = d.deviceId ∧
      (patchDevice enabled pm now d).platform = d.platform ∧
      (patchDevice enabled pm now d).browser = d.browser ∧
      (patchDevice enabled pm now d).webPushSubscription = d.webPushSubscription ∧
      (patchDevice enabled pm now d).fcmToken = d.fcmToken) ∧
    (∀ (devices : List Device) (did : String) (enabled : Option Bool) (pm : Option String)
        (now : Nat) (l : List Device),
      updateDeviceSettings devices did enabled pm now = some l →
      l.length = devices.length ∧
      (∀ i : Nat, l[i]? = devices[i]? ∨ ∃ d, devices[i]? = some d ∧ d.deviceId = did ∧
        l[i]? = some (patchDevice enabled pm now d)) ∧
      (∀ i j : Nat, l[i]? ≠ devices[i]? → l[j]? ≠ devices[j]? → i = j)) := by
  refine ⟨?_, ?_, ?_, ?_, ?_, ?_, ?_⟩
  · intro devices data i h
    simp only [upsertDevice, h, if_true]
    exact updateFirstDevice_getElem? devices data.deviceId (fun _ => data) i
  · intro devices data i j h hi hj
    simp only [upsertDevice, h, if_true] at hi hj
    exact updateFirstDevice_changed_unique devices data.deviceId (fun _ => data) i j hi hj
  · intro devices data h
    simp [upsertDevice, h]
  · intro devices did d
    simp [removeDevice, List.mem_filter, bne_iff_ne]
  · intro devices did
    exact List.filter_sublist devices
  · intro enabled pm now d
    unfold patchDevice
    cases enabled <;> cases pm <;> simp <;> split <;> simp
  · intro devices did enabled pm now l h
    simp only [updateDeviceSettings] at h
    split at h
    · have hl := Option.some.inj h
      subst hl
      refine ⟨updateFirstDevice_length devices did _, ?_, ?_⟩
      · intro i
        exact updateFirstDevice_getElem? devices did (patchDevice enabled pm now) i
      · intro i j hi hj
        exact updateFirstDevice_changed_unique devices did (patchDevice enabled pm now) i j hi hj
    · exact absurd h (by simp)

/-- C10 witness: disabling one of two devices keeps the device count, and
subscribing a fresh id appends without touching the existing record. -/
theorem C10_registry_frame_witness :
    ([{ deviceId := "d1", platform := "web", enabled := false, lastActiveAt := 7 },
      { deviceId := "d2", platform := "web" }] : List Device).length =
      ([{ deviceId := "d1", platform := "web" },
        { deviceId := "d2", platform := "web" }] : List Device).length ∧
    upsertDevice [{ deviceId := "d1", platform := "web" }] { deviceId := "d3", platform := "web" } =
      [{ deviceId := "d1", platform := "web" }] ++ [{ deviceId := "d3", platform := "web" }] := by
  constructor
  · exact (C10_registry_frame.2.2.2.2.2.2
      [{ deviceId := "d1", platform := "web" }, { deviceId := "d2", platform := "web" }]
      "d1" (some false) none 7
      [{ deviceId := "d1", platform := "web", enabled := false, lastActiveAt := 7 },
       { deviceId := "d2", platform := "web" }] rfl).1
  · exact C10_registry_frame.2.2.1 [{ deviceId := "d1", platform := "web" }]
      { deviceId := "d3", platform := "web" } (by decide)
